import Mathlib

/-!
Shallow embedding of `src/src/main.rs` of the coreum-challenge repository:
the `calculate_balance_changes` settlement calculator for multi-send
transactions, together with its helper functions.

Modelling conventions:
* Rust `i128` amounts are modelled as unbounded `Int`; no claim under study
  concerns 128-bit overflow, and the source comments assume amounts stay in
  range.
* Rust `f64` rates are modelled as exact rationals `ℚ`. Every concrete rate
  used in a theorem below is a small dyadic rational (0, 1/4, 1/2, ...) and
  every concrete amount is small, so the `f64` arithmetic of the source is
  exact on those inputs and agrees with the rational model.
* `HashMap` is modelled as an association list with overwrite-on-insert
  (`insertA`) and first-match lookup (`lookupA`); this reproduces exactly the
  lookup behaviour of `HashMap` (last insert for a key wins), and the claims
  under study are stated through lookups, never through iteration order.
* A Rust `.unwrap()` on a missing key is a panic; the result type `Outcome`
  has a dedicated `panic` constructor for it, next to `err` (early `return
  Err(..)`) and `ok`.
* The final `collect_balance_changes` of the source only reshapes the nested
  hash map `coin_balance_changes_map` into a `Vec<Balance>` (in unspecified
  `HashMap` iteration order); the model therefore returns the nested map
  itself, and per-address per-denom deltas are read off with `deltaOf`.
-/

/-- Mirrors `struct Coin` (src/src/main.rs lines 145-149). -/
structure Coin where
  denom : String
  amount : Int
deriving DecidableEq, Repr

/-- Mirrors `struct Balance` (src/src/main.rs lines 151-155). -/
structure Balance where
  address : String
  coins : List Coin
deriving DecidableEq, Repr

/-- Mirrors `struct DenomDefinition` (src/src/main.rs lines 158-174);
`burn_rate` and `commission_rate` are the `f64` fields, modelled as exact
rationals. -/
structure DenomDefinition where
  denom : String
  issuer : String
  burn_rate : ℚ
  commission_rate : ℚ
deriving DecidableEq, Repr

/-- Mirrors `struct MultiSend` (src/src/main.rs lines 13-20). -/
structure MultiSend where
  inputs : List Balance
  outputs : List Balance
deriving DecidableEq, Repr

/-- First-match lookup in an association list; models `HashMap::get`. -/
def lookupA {α : Type} (k : String) : List (String × α) → Option α
  | [] => none
  | (k2, v) :: rest => if k2 = k then some v else lookupA k rest

/-- Overwrite-or-append insert in an association list; models
`HashMap::insert` (and in-place `get_mut` updates) at the level of lookup
behaviour. -/
def insertA {α : Type} (k : String) (v : α) : List (String × α) → List (String × α)
  | [] => [(k, v)]
  | (k2, v2) :: rest => if k2 = k then (k, v) :: rest else (k2, v2) :: insertA k v rest

/-- Add `v` to the entry of `k`, inserting `v` when `k` is absent; models the
`if let Some(amount) = map.get_mut(k) { *amount += v } else { map.insert(k, v) }`
pattern of `initialize_bc_data` (src/src/main.rs lines 98-105 and 116-123). -/
def bumpA (k : String) (v : Int) (m : List (String × Int)) : List (String × Int) :=
  match lookupA k m with
  | some old => insertA k (old + v) m
  | none => insertA k v m

/-- Mirrors `MultiSend::validate_multi_send_tx` (src/src/main.rs lines 24-39):
the input and output amounts are summed into one combined scalar each, across
all denoms, and the two totals are compared. -/
def validate_multi_send_tx (tx : MultiSend) : Except String Unit :=
  let s0 : Int := tx.inputs.foldl (fun acc i => acc + i.coins.foldl (fun a c => a + c.amount) 0) 0
  let s1 : Int := tx.outputs.foldl (fun acc o => acc + o.coins.foldl (fun a c => a + c.amount) 0) 0
  if s0 ≠ s1 then Except.error "Invalid Multi Send Tx" else Except.ok ()

/-- Mirrors `TxData::initialize_balances_map` (src/src/main.rs lines 72-79). -/
def initialize_balances_map (original_balances : List Balance) : List (String × Balance) :=
  original_balances.foldl (fun m balance => insertA balance.address balance m) []

/-- Mirrors `TxData::initialize_definitions_map` (src/src/main.rs lines 82-88). -/
def initialize_definitions_map (definitions : List DenomDefinition) :
    List (String × DenomDefinition) :=
  definitions.foldl (fun m definition => insertA definition.denom definition m) []

/-- One coin step of the first loop of `TxData::initialize_bc_data`
(src/src/main.rs lines 94-109): a coin of a defined denom sent by a
non-issuer address bumps that denom's non-issuer input sum. -/
def non_issuer_input_step (defsMap : List (String × DenomDefinition)) (address : String)
    (m : List (String × Int)) (coin : Coin) : List (String × Int) :=
  match lookupA coin.denom defsMap with
  | some definition =>
      if address ≠ definition.issuer then bumpA definition.denom coin.amount m else m
  | none => m

/-- The `non_issuer_input_sum_map` built by `TxData::initialize_bc_data`
(src/src/main.rs lines 92-109). -/
def initialize_non_issuer_input_sum_map (defsMap : List (String × DenomDefinition))
    (inputs : List Balance) : List (String × Int) :=
  inputs.foldl (fun m input => input.coins.foldl (non_issuer_input_step defsMap input.address) m) []

/-- One coin step of the second loop of `TxData::initialize_bc_data`
(src/src/main.rs lines 111-127). -/
def non_issuer_output_step (defsMap : List (String × DenomDefinition)) (address : String)
    (m : List (String × Int)) (coin : Coin) : List (String × Int) :=
  match lookupA coin.denom defsMap with
  | some definition =>
      if address ≠ definition.issuer then bumpA definition.denom coin.amount m else m
  | none => m

/-- The `non_issuer_output_sum_map` built by `TxData::initialize_bc_data`
(src/src/main.rs lines 111-127). -/
def initialize_non_issuer_output_sum_map (defsMap : List (String × DenomDefinition))
    (outputs : List Balance) : List (String × Int) :=
  outputs.foldl (fun m output => output.coins.foldl (non_issuer_output_step defsMap output.address) m) []

/-- Mirrors the local `fn min` of the source (src/src/main.rs lines 360-366). -/
def minI (a b : Int) : Int := if a < b then a else b

/-- Rust `as i128` applied to a finite in-range `f64`: truncation toward
zero, modelled on exact rationals. -/
def f64_as_i128 (q : ℚ) : Int := if 0 ≤ q then ⌊q⌋ else -⌊-q⌋

/-- Mirrors `fn roundup` (src/src/main.rs lines 374-376): `(n + 0.5) as i128`. -/
def roundup (n : ℚ) : Int := f64_as_i128 (n + 1/2)

/-- Mirrors `fn evaluate_rate` (src/src/main.rs lines 369-371):
`roundup((total_amount as f64 * rate) * amount as f64 / non_issuer_input_sum as f64)`. -/
def evaluate_rate (amount : Int) (rate : ℚ) (total_amount : Int)
    (non_issuer_input_sum : Int) : Int :=
  roundup ((total_amount * rate) * amount / non_issuer_input_sum)

/-- Result of a computation that may return an error string (Rust
`return Err(..)`) or panic (Rust `.unwrap()` on `None`). -/
inductive Outcome (α : Type) where
  | panic : Outcome α
  | err : String → Outcome α
  | ok : α → Outcome α
deriving DecidableEq, Repr

/-- The nested `coin_balance_changes_map`: address to (denom to delta). -/
abbrev ChangesMap := List (String × List (String × Int))

/-- Add `v` to the delta of `(address, denom)`; mirrors the three-branch
nested-map update pattern used for the sender debit (src/src/main.rs lines
277-296) and for the output credit (src/src/main.rs lines 340-352). -/
def addToEntry (address denom : String) (v : Int) (changes : ChangesMap) : ChangesMap :=
  match lookupA address changes with
  | some coin_map =>
      match lookupA denom coin_map with
      | some old => insertA address (insertA denom (old + v) coin_map) changes
      | none => insertA address (insertA denom v coin_map) changes
  | none => insertA address [(denom, v)] changes

/-- The issuer commission credit (src/src/main.rs lines 299-313): like
`addToEntry`, except that when the entry is absent a zero commission amount
inserts nothing (`else if commission_amount != 0`). -/
def creditIssuer (issuer denom : String) (c : Int) (changes : ChangesMap) : ChangesMap :=
  match lookupA issuer changes with
  | some coin_map =>
      match lookupA denom coin_map with
      | some old => insertA issuer (insertA denom (old + c) coin_map) changes
      | none => if c ≠ 0 then insertA issuer (insertA denom c coin_map) changes else changes
  | none => if c ≠ 0 then insertA issuer [(denom, c)] changes else changes

/-- The issuer-as-sender branch (src/src/main.rs lines 314-331). The middle
branch reproduces the source exactly: when the address already has a coin map
without this denom, the source inserts `coin.amount` with a positive sign
(`coin_map.insert(coin.denom.clone(), coin.amount)`, line 322), unlike the
other two branches which subtract. -/
def issuerSelfDebit (address denom : String) (amount : Int) (changes : ChangesMap) : ChangesMap :=
  match lookupA address changes with
  | some coin_map =>
      match lookupA denom coin_map with
      | some old => insertA address (insertA denom (old - amount) coin_map) changes
      | none => insertA address (insertA denom amount coin_map) changes
  | none => insertA address [(denom, -amount)] changes

/-- The maps held in `TxData` that the processing loops read
(src/src/main.rs lines 43-52). -/
structure TxCtx where
  non_issuer_input_sum_map : List (String × Int)
  non_issuer_output_sum_map : List (String × Int)
  balances_map : List (String × Balance)
  denom_definitions_map : List (String × DenomDefinition)

/-- Builds the `TxData` maps as `calculate_balance_changes` does
(src/src/main.rs lines 217-224). -/
def build_tx_ctx (original_balances : List Balance) (definitions : List DenomDefinition)
    (multi_send_tx : MultiSend) : TxCtx :=
  { non_issuer_input_sum_map :=
      initialize_non_issuer_input_sum_map (initialize_definitions_map definitions)
        multi_send_tx.inputs
    non_issuer_output_sum_map :=
      initialize_non_issuer_output_sum_map (initialize_definitions_map definitions)
        multi_send_tx.outputs
    balances_map := initialize_balances_map original_balances
    denom_definitions_map := initialize_definitions_map definitions }

/-- The body of the input loop for one coin (src/src/main.rs lines 229-332),
with `idx` the enumeration index of the coin inside its input leg. -/
def processInputCoin (ctx : TxCtx) (address : String) (idx : Nat) (coin : Coin)
    (changes : ChangesMap) : Outcome ChangesMap :=
  match lookupA coin.denom ctx.denom_definitions_map with
  | none => Outcome.ok changes
  | some definition =>
      if address ≠ definition.issuer then
        match lookupA coin.denom ctx.non_issuer_input_sum_map with
        | none => Outcome.panic
        | some non_issuer_input_sum =>
            match lookupA coin.denom ctx.non_issuer_output_sum_map with
            | none => Outcome.panic
            | some non_issuer_output_sum =>
                let total_bc := minI non_issuer_input_sum non_issuer_output_sum
                let burn_amount :=
                  evaluate_rate coin.amount definition.burn_rate total_bc non_issuer_input_sum
                let commission_amount :=
                  evaluate_rate coin.amount definition.commission_rate total_bc
                    non_issuer_input_sum
                match lookupA address ctx.balances_map with
                | none => Outcome.panic
                | some balance =>
                    match balance.coins.get? idx with
                    | some c =>
                        if c.amount < coin.amount + burn_amount + commission_amount then
                          Outcome.err ("Inssuficient wallet balance on " ++ address
                            ++ " for coin " ++ coin.denom)
                        else
                          Outcome.ok (creditIssuer definition.issuer coin.denom commission_amount
                            (addToEntry address coin.denom
                              (-(burn_amount + commission_amount + coin.amount)) changes))
                    | none =>
                        Outcome.err ("Inssuficient wallet balance on " ++ address
                          ++ " for coin " ++ coin.denom)
      else
        Outcome.ok (issuerSelfDebit address coin.denom coin.amount changes)

/-- Processes the coins of one input leg in order, with their enumeration
indices (src/src/main.rs line 229). -/
def processInputCoins (ctx : TxCtx) (address : String) : Nat → List Coin → ChangesMap →
    Outcome ChangesMap
  | _, [], changes => Outcome.ok changes
  | idx, coin :: rest, changes =>
      match processInputCoin ctx address idx coin changes with
      | Outcome.panic => Outcome.panic
      | Outcome.err e => Outcome.err e
      | Outcome.ok changes2 => processInputCoins ctx address (idx + 1) rest changes2

/-- Processes the input legs in order (src/src/main.rs lines 228-334). -/
def processInputs (ctx : TxCtx) : List Balance → ChangesMap → Outcome ChangesMap
  | [], changes => Outcome.ok changes
  | input :: rest, changes =>
      match processInputCoins ctx input.address 0 input.coins changes with
      | Outcome.panic => Outcome.panic
      | Outcome.err e => Outcome.err e
      | Outcome.ok changes2 => processInputs ctx rest changes2

/-- The output loop (src/src/main.rs lines 337-354): every output coin is
credited unconditionally. -/
def processOutputs (outputs : List Balance) (changes : ChangesMap) : ChangesMap :=
  outputs.foldl
    (fun ch output => output.coins.foldl
      (fun ch2 coin => addToEntry output.address coin.denom coin.amount ch2) ch) changes

/-- Mirrors `fn calculate_balance_changes` (src/src/main.rs lines 209-358).
Returns the nested delta map (see the module comment on
`collect_balance_changes`). -/
def calculate_balance_changes (original_balances : List Balance)
    (definitions : List DenomDefinition) (multi_send_tx : MultiSend) : Outcome ChangesMap :=
  match validate_multi_send_tx multi_send_tx with
  | Except.error e => Outcome.err e
  | Except.ok _ =>
      match processInputs (build_tx_ctx original_balances definitions multi_send_tx)
          multi_send_tx.inputs [] with
      | Outcome.panic => Outcome.panic
      | Outcome.err e => Outcome.err e
      | Outcome.ok changes => Outcome.ok (processOutputs multi_send_tx.outputs changes)

/-- The signed delta recorded for `(address, denom)`; an absent entry is a
zero delta. -/
def deltaOf (changes : ChangesMap) (address denom : String) : Int :=
  match lookupA address changes with
  | some coin_map =>
      match lookupA denom coin_map with
      | some a => a
      | none => 0
  | none => 0

/-! ### Basic lemmas about the association-list model -/

theorem lookupA_insertA_self {α : Type} (k : String) (v : α) (m : List (String × α)) :
    lookupA k (insertA k v m) = some v := by
  induction m with
  | nil => simp [insertA, lookupA]
  | cons p rest ih =>
      obtain ⟨k2, v2⟩ := p
      by_cases h : k2 = k
      · simp [insertA, h, lookupA]
      · simp [insertA, h, lookupA, ih]

theorem lookupA_insertA_ne {α : Type} {k k2 : String} (h : k ≠ k2) (v : α)
    (m : List (String × α)) : lookupA k (insertA k2 v m) = lookupA k m := by
  have h2 : ¬ (k2 = k) := fun he => h he.symm
  induction m with
  | nil => simp [insertA, lookupA, h2]
  | cons p rest ih =>
      obtain ⟨k3, v3⟩ := p
      by_cases h3 : k3 = k2
      · subst h3
        simp [insertA, lookupA, h2]
      · simp only [insertA, if_neg h3]
        by_cases hk : k3 = k
        · simp [lookupA, hk]
        · simp [lookupA, hk, ih]

theorem isSome_lookupA_insertA {α : Type} (k k2 : String) (v : α) (m : List (String × α))
    (h : (lookupA k m).isSome = true) : (lookupA k (insertA k2 v m)).isSome = true := by
  by_cases hk : k = k2
  · subst hk
    rw [lookupA_insertA_self]
    rfl
  · rw [lookupA_insertA_ne hk]
    exact h

theorem isSome_lookupA_bumpA (k k2 : String) (v : Int) (m : List (String × Int))
    (h : (lookupA k m).isSome = true) : (lookupA k (bumpA k2 v m)).isSome = true := by
  unfold bumpA
  cases lookupA k2 m with
  | none => exact isSome_lookupA_insertA k k2 v m h
  | some old => exact isSome_lookupA_insertA k k2 (old + v) m h

theorem isSome_lookupA_input_step (defsMap : List (String × DenomDefinition))
    (address : String) (m : List (String × Int)) (coin : Coin) (k : String)
    (h : (lookupA k m).isSome = true) :
    (lookupA k (non_issuer_input_step defsMap address m coin)).isSome = true := by
  unfold non_issuer_input_step
  cases lookupA coin.denom defsMap with
  | none => exact h
  | some d =>
      by_cases hi : address ≠ d.issuer
      · simp only [if_pos hi]
        exact isSome_lookupA_bumpA k d.denom coin.amount m h
      · simp only [if_neg hi]
        exact h

theorem isSome_lookupA_foldl_coins (defsMap : List (String × DenomDefinition))
    (address k : String) (coins : List Coin) :
    ∀ m : List (String × Int), (lookupA k m).isSome = true →
      (lookupA k (coins.foldl (non_issuer_input_step defsMap address) m)).isSome = true := by
  induction coins with
  | nil => intro m h; simpa using h
  | cons c cs ih =>
      intro m h
      rw [List.foldl_cons]
      exact ih _ (isSome_lookupA_input_step defsMap address m c k h)

theorem isSome_lookupA_foldl_inputs (defsMap : List (String × DenomDefinition)) (k : String)
    (inputs : List Balance) :
    ∀ m : List (String × Int), (lookupA k m).isSome = true →
      (lookupA k (inputs.foldl
        (fun m2 input => input.coins.foldl (non_issuer_input_step defsMap input.address) m2)
        m)).isSome = true := by
  induction inputs with
  | nil => intro m h; simpa using h
  | cons i rest ih =>
      intro m h
      rw [List.foldl_cons]
      exact ih _ (isSome_lookupA_foldl_coins defsMap i.address k i.coins m h)

theorem lookupA_initialize_definitions_map (definitions : List DenomDefinition)
    (k : String) (d : DenomDefinition)
    (h : lookupA k (initialize_definitions_map definitions) = some d) : d.denom = k := by
  have aux : ∀ (defs : List DenomDefinition) (m : List (String × DenomDefinition)),
      (∀ k2 d2, lookupA k2 m = some d2 → d2.denom = k2) →
      ∀ k2 d2, lookupA k2 (defs.foldl (fun m2 df => insertA df.denom df m2) m) = some d2 →
        d2.denom = k2 := by
    intro defs
    induction defs with
    | nil => intro m hm; simpa using hm
    | cons df rest ih =>
        intro m hm
        rw [List.foldl_cons]
        apply ih
        intro k2 d2 hkd
        by_cases hk : k2 = df.denom
        · subst hk
          rw [lookupA_insertA_self] at hkd
          cases hkd
          rfl
        · rw [lookupA_insertA_ne hk] at hkd
          exact hm k2 d2 hkd
  exact aux definitions [] (by intro k2 d2 h2; simp [lookupA] at h2) k d h

theorem firstCoin_inputSum_isSome (definitions : List DenomDefinition) (address : String)
    (coin : Coin) (cs : List Coin) (rest : List Balance) (dd : DenomDefinition)
    (hdef : lookupA coin.denom (initialize_definitions_map definitions) = some dd)
    (hne : address ≠ dd.issuer) :
    (lookupA coin.denom (initialize_non_issuer_input_sum_map
      (initialize_definitions_map definitions)
      (Balance.mk address (coin :: cs) :: rest))).isSome = true := by
  have hden : dd.denom = coin.denom := lookupA_initialize_definitions_map definitions _ _ hdef
  unfold initialize_non_issuer_input_sum_map
  rw [List.foldl_cons]
  apply isSome_lookupA_foldl_inputs
  rw [List.foldl_cons]
  apply isSome_lookupA_foldl_coins
  simp only [non_issuer_input_step, hdef]
  rw [if_pos hne, hden]
  unfold bumpA
  simp [lookupA, lookupA_insertA_self]

/-! ### Lemmas about the nested delta map -/

theorem deltaOf_addToEntry_self (address denom : String) (v : Int) (m : ChangesMap) :
    deltaOf (addToEntry address denom v m) address denom = deltaOf m address denom + v := by
  cases h1 : lookupA address m with
  | none => simp [addToEntry, deltaOf, h1, lookupA_insertA_self, lookupA]
  | some cm =>
      cases h2 : lookupA denom cm with
      | none => simp [addToEntry, deltaOf, h1, h2, lookupA_insertA_self]
      | some old => simp [addToEntry, deltaOf, h1, h2, lookupA_insertA_self]

theorem deltaOf_addToEntry_ne (address denom : String) (v : Int) (m : ChangesMap)
    (a d : String) (ha : a ≠ address) :
    deltaOf (addToEntry address denom v m) a d = deltaOf m a d := by
  cases h1 : lookupA address m with
  | none => simp [addToEntry, deltaOf, h1, lookupA_insertA_ne ha]
  | some cm =>
      cases h2 : lookupA denom cm with
      | none => simp [addToEntry, deltaOf, h1, h2, lookupA_insertA_ne ha]
      | some old => simp [addToEntry, deltaOf, h1, h2, lookupA_insertA_ne ha]

theorem deltaOf_creditIssuer_self (issuer denom : String) (c : Int) (m : ChangesMap) :
    deltaOf (creditIssuer issuer denom c m) issuer denom = deltaOf m issuer denom + c := by
  by_cases hc : c = 0
  · cases h1 : lookupA issuer m with
    | none => simp [creditIssuer, deltaOf, h1, hc]
    | some cm =>
        cases h2 : lookupA denom cm with
        | none => simp [creditIssuer, deltaOf, h1, h2, hc]
        | some old => simp [creditIssuer, deltaOf, h1, h2, hc, lookupA_insertA_self]
  · cases h1 : lookupA issuer m with
    | none => simp [creditIssuer, deltaOf, h1, hc, lookupA_insertA_self, lookupA]
    | some cm =>
        cases h2 : lookupA denom cm with
        | none => simp [creditIssuer, deltaOf, h1, h2, hc, lookupA_insertA_self]
        | some old => simp [creditIssuer, deltaOf, h1, h2, hc, lookupA_insertA_self]

theorem deltaOf_creditIssuer_ne (issuer denom : String) (c : Int) (m : ChangesMap)
    (a d : String) (ha : a ≠ issuer) :
    deltaOf (creditIssuer issuer denom c m) a d = deltaOf m a d := by
  by_cases hc : c = 0
  · cases h1 : lookupA issuer m with
    | none => simp [creditIssuer, deltaOf, h1, hc]
    | some cm =>
        cases h2 : lookupA denom cm with
        | none => simp [creditIssuer, deltaOf, h1, h2, hc]
        | some old => simp [creditIssuer, deltaOf, h1, h2, hc, lookupA_insertA_ne ha]
  · cases h1 : lookupA issuer m with
    | none => simp [creditIssuer, deltaOf, h1, hc, lookupA_insertA_ne ha]
    | some cm =>
        cases h2 : lookupA denom cm with
        | none => simp [creditIssuer, deltaOf, h1, h2, hc, lookupA_insertA_ne ha]
        | some old => simp [creditIssuer, deltaOf, h1, h2, hc, lookupA_insertA_ne ha]

/-! ### Projections of the constructed context -/

theorem build_tx_ctx_defs (ob : List Balance) (defs : List DenomDefinition) (tx : MultiSend) :
    (build_tx_ctx ob defs tx).denom_definitions_map = initialize_definitions_map defs := rfl

theorem build_tx_ctx_input_sums (ob : List Balance) (defs : List DenomDefinition)
    (tx : MultiSend) : (build_tx_ctx ob defs tx).non_issuer_input_sum_map =
      initialize_non_issuer_input_sum_map (initialize_definitions_map defs) tx.inputs := rfl

theorem build_tx_ctx_output_sums (ob : List Balance) (defs : List DenomDefinition)
    (tx : MultiSend) : (build_tx_ctx ob defs tx).non_issuer_output_sum_map =
      initialize_non_issuer_output_sum_map (initialize_definitions_map defs) tx.outputs := rfl

theorem build_tx_ctx_balances (ob : List Balance) (defs : List DenomDefinition)
    (tx : MultiSend) : (build_tx_ctx ob defs tx).balances_map =
      initialize_balances_map ob := rfl

/-! ### Arithmetic helpers -/

theorem evaluate_rate_zero (a t n : Int) : evaluate_rate a 0 t n = 0 := by
  unfold evaluate_rate roundup f64_as_i128
  norm_num

theorem evaluate_rate_650_burn : evaluate_rate 650 (8/100) 500 1000 = 26 := by
  norm_num [evaluate_rate, roundup, f64_as_i128]

theorem evaluate_rate_650_commission : evaluate_rate 650 (12/100) 500 1000 = 39 := by
  norm_num [evaluate_rate, roundup, f64_as_i128]

theorem evaluate_rate_350_burn : evaluate_rate 350 (8/100) 500 1000 = 14 := by
  norm_num [evaluate_rate, roundup, f64_as_i128]

theorem evaluate_rate_350_commission : evaluate_rate 350 (12/100) 500 1000 = 21 := by
  norm_num [evaluate_rate, roundup, f64_as_i128]

/-! ### Faithfulness checks: the model reproduces the repository's own tests

The source's test `test_issuer_exists_on_sender_receiver` (README example 2,
src/src/main.rs lines 452-498 and 652-714) asserts exactly the deltas below,
and `test_invalid_sum` / `test_insufficient_balance` assert the two error
strings. -/

theorem model_replays_readme_example_two : calculate_balance_changes
    [⟨"account1", [⟨"denom1", 1000000⟩]⟩, ⟨"account2", [⟨"denom2", 1000000⟩]⟩]
    [⟨"denom1", "issuer_account_A", 8/100, 12/100⟩]
    ⟨[⟨"account1", [⟨"denom1", 650⟩]⟩, ⟨"account2", [⟨"denom1", 350⟩]⟩],
     [⟨"account_recipient", [⟨"denom1", 500⟩]⟩, ⟨"issuer_account_A", [⟨"denom1", 500⟩]⟩]⟩ =
    Outcome.ok [("account1", [("denom1", -715)]), ("issuer_account_A", [("denom1", 560)]),
      ("account2", [("denom1", -385)]), ("account_recipient", [("denom1", 500)])] := by
  simp [calculate_balance_changes, validate_multi_send_tx, build_tx_ctx,
    initialize_balances_map, initialize_definitions_map,
    initialize_non_issuer_input_sum_map, initialize_non_issuer_output_sum_map,
    non_issuer_input_step, non_issuer_output_step, bumpA, insertA, lookupA,
    processInputs, processInputCoins, processInputCoin, minI,
    evaluate_rate_650_burn, evaluate_rate_650_commission,
    evaluate_rate_350_burn, evaluate_rate_350_commission,
    addToEntry, creditIssuer, issuerSelfDebit, processOutputs]

theorem model_replays_invalid_sum : calculate_balance_changes
    [⟨"account1", [⟨"denom1", 1000000⟩]⟩]
    [⟨"denom1", "issuer_account_A", 0, 0⟩]
    ⟨[⟨"account1", [⟨"denom1", 350⟩]⟩], [⟨"account_recipient", [⟨"denom1", 450⟩]⟩]⟩ =
    Outcome.err "Invalid Multi Send Tx" := by decide

theorem model_replays_insufficient_balance : calculate_balance_changes
    [⟨"account1", []⟩]
    [⟨"denom1", "issuer_account_A", 0, 0⟩]
    ⟨[⟨"account1", [⟨"denom1", 350⟩]⟩], [⟨"account_recipient", [⟨"denom1", 350⟩]⟩]⟩ =
    Outcome.err "Inssuficient wallet balance on account1 for coin denom1" := by
  simp [calculate_balance_changes, validate_multi_send_tx, build_tx_ctx,
    initialize_balances_map, initialize_definitions_map,
    initialize_non_issuer_input_sum_map, initialize_non_issuer_output_sum_map,
    non_issuer_input_step, non_issuer_output_step, bumpA, insertA, lookupA,
    processInputs, processInputCoins, processInputCoin, minI, evaluate_rate_zero,
    addToEntry, creditIssuer, issuerSelfDebit, processOutputs]

/-! ### Claim theorems -/

/-- C1: the balanced-transaction check of `calculate_balance_changes` compares
one combined total across all denoms, not per-denom sums. At this input denomA
has input sum 100 but output sum 30 (the source's own non-issuer sum maps
record 100 and 30), yet validation succeeds because the combined totals are
both 100, and the call completes with a settlement instead of returning the
unbalanced-transaction rejection. -/
theorem c1_cross_denom_swap_accepted :
    lookupA "denomA" (initialize_non_issuer_input_sum_map
      (initialize_definitions_map [⟨"denomA", "I", 0, 0⟩])
      [⟨"a", [⟨"denomA", 100⟩]⟩]) = some 100 ∧
    lookupA "denomA" (initialize_non_issuer_output_sum_map
      (initialize_definitions_map [⟨"denomA", "I", 0, 0⟩])
      [⟨"b", [⟨"denomA", 30⟩, ⟨"denomB", 70⟩]⟩]) = some 30 ∧
    validate_multi_send_tx
      ⟨[⟨"a", [⟨"denomA", 100⟩]⟩], [⟨"b", [⟨"denomA", 30⟩, ⟨"denomB", 70⟩]⟩]⟩ = Except.ok () ∧
    calculate_balance_changes [⟨"a", [⟨"denomA", 500⟩]⟩] [⟨"denomA", "I", 0, 0⟩]
      ⟨[⟨"a", [⟨"denomA", 100⟩]⟩], [⟨"b", [⟨"denomA", 30⟩, ⟨"denomB", 70⟩]⟩]⟩ =
      Outcome.ok [("a", [("denomA", -100)]), ("b", [("denomA", 30), ("denomB", 70)])] := by
  refine ⟨by decide, by decide, rfl, ?_⟩
  simp [calculate_balance_changes, validate_multi_send_tx, build_tx_ctx,
    initialize_balances_map, initialize_definitions_map,
    initialize_non_issuer_input_sum_map, initialize_non_issuer_output_sum_map,
    non_issuer_input_step, non_issuer_output_step, bumpA, insertA, lookupA,
    processInputs, processInputCoins, processInputCoin, minI, evaluate_rate_zero,
    addToEntry, creditIssuer, issuerSelfDebit, processOutputs]

/-- C2: the sufficient-balance check reads the sender's balance coin at the
positional index of the input coin, not by denom. Here account1's snapshot
holds only 10000 of denom2 and zero of denom1, yet an input of 350 denom1 is
accepted: the check compares 10000 (the denom2 coin at index 0) against 350,
so no insufficient-balance rejection is produced. -/
theorem c2_positional_balance_check_accepts_missing_denom :
    calculate_balance_changes [⟨"account1", [⟨"denom2", 10000⟩]⟩]
      [⟨"denom1", "issuer_A", 0, 0⟩]
      ⟨[⟨"account1", [⟨"denom1", 350⟩]⟩], [⟨"recipient", [⟨"denom1", 350⟩]⟩]⟩ =
      Outcome.ok [("account1", [("denom1", -350)]), ("recipient", [("denom1", 350)])] := by
  simp [calculate_balance_changes, validate_multi_send_tx, build_tx_ctx,
    initialize_balances_map, initialize_definitions_map,
    initialize_non_issuer_input_sum_map, initialize_non_issuer_output_sum_map,
    non_issuer_input_step, non_issuer_output_step, bumpA, insertA, lookupA,
    processInputs, processInputCoins, processInputCoin, minI, evaluate_rate_zero,
    addToEntry, creditIssuer, issuerSelfDebit, processOutputs]

/-- C3: an accepted instruction whose per-address deltas do not sum to minus
the burned amount. Both rates are zero so the total burned amount is zero,
yet the deltas of denomA over all touched addresses sum to -60, because the
combined-total validation accepted a per-denom-unbalanced instruction. -/
theorem c3_accepted_deltas_lose_coins_without_burn :
    calculate_balance_changes [⟨"a", [⟨"denomA", 1000⟩]⟩] [⟨"denomA", "I", 0, 0⟩]
      ⟨[⟨"a", [⟨"denomA", 100⟩]⟩], [⟨"b", [⟨"denomA", 40⟩, ⟨"denomB", 60⟩]⟩]⟩ =
      Outcome.ok [("a", [("denomA", -100)]), ("b", [("denomA", 40), ("denomB", 60)])] ∧
    deltaOf [("a", [("denomA", -100)]), ("b", [("denomA", 40), ("denomB", 60)])] "a" "denomA" +
      deltaOf [("a", [("denomA", -100)]), ("b", [("denomA", 40), ("denomB", 60)])] "b" "denomA" +
      deltaOf [("a", [("denomA", -100)]), ("b", [("denomA", 40), ("denomB", 60)])] "I" "denomA" =
      -60 := by
  refine ⟨?_, by decide⟩
  simp [calculate_balance_changes, validate_multi_send_tx, build_tx_ctx,
    initialize_balances_map, initialize_definitions_map,
    initialize_non_issuer_input_sum_map, initialize_non_issuer_output_sum_map,
    non_issuer_input_step, non_issuer_output_step, bumpA, insertA, lookupA,
    processInputs, processInputCoins, processInputCoin, minI, evaluate_rate_zero,
    addToEntry, creditIssuer, issuerSelfDebit, processOutputs]

/-- C5: an issuer sending two denoms it issues is debited -10 for the first
coin, but the second coin hits the positive-insert branch of the
issuer-as-sender update (src/src/main.rs line 322) and the issuer is credited
+20 instead of being debited -20, even though both rates are irrelevant to
the issuer branch. -/
theorem c5_issuer_second_denom_credited_not_debited :
    calculate_balance_changes []
      [⟨"denom1", "I", 0, 0⟩, ⟨"denom2", "I", 0, 0⟩]
      ⟨[⟨"I", [⟨"denom1", 10⟩, ⟨"denom2", 20⟩]⟩], [⟨"r", [⟨"denom1", 10⟩, ⟨"denom2", 20⟩]⟩]⟩ =
      Outcome.ok [("I", [("denom1", -10), ("denom2", 20)]), ("r", [("denom1", 10), ("denom2", 20)])] ∧
    deltaOf [("I", [("denom1", -10), ("denom2", 20)]), ("r", [("denom1", 10), ("denom2", 20)])]
      "I" "denom2" = 20 := by decide

/-- C8: with every rate zero, an accepted instruction still fails to debit
each input leg by its amount: the issuer's second input coin is recorded as
+5 instead of -5 by the positive-insert branch of the issuer-as-sender
update. -/
theorem c8_zero_rate_issuer_leg_sign_flipped :
    calculate_balance_changes []
      [⟨"d1", "issuerZ", 0, 0⟩, ⟨"d2", "issuerZ", 0, 0⟩]
      ⟨[⟨"issuerZ", [⟨"d1", 7⟩, ⟨"d2", 5⟩]⟩], [⟨"w", [⟨"d1", 7⟩, ⟨"d2", 5⟩]⟩]⟩ =
      Outcome.ok [("issuerZ", [("d1", -7), ("d2", 5)]), ("w", [("d1", 7), ("d2", 5)])] ∧
    deltaOf [("issuerZ", [("d1", -7), ("d2", 5)]), ("w", [("d1", 7), ("d2", 5)])]
      "issuerZ" "d2" = 5 := by decide

/-- C6 counterexample: a coin with no denom definition is not debited from
its sender. The input leg of 100 denomU from account a leaves no delta for a
at all (the input loop skips undefined denoms entirely), while the output leg
is still credited, so the claim that input legs of undefined denoms are
debited by their amount is false at this input. -/
theorem c6_undefined_denom_input_leg_not_debited :
    calculate_balance_changes [⟨"a", [⟨"denomU", 500⟩]⟩] []
      ⟨[⟨"a", [⟨"denomU", 100⟩]⟩], [⟨"b", [⟨"denomU", 100⟩]⟩]⟩ =
      Outcome.ok [("b", [("denomU", 100)])] ∧
    deltaOf [("b", [("denomU", 100)])] "a" "denomU" = 0 := by decide

/-- C6 amended: a coin whose denom has no definition is skipped by the input
loop (its sender is not debited, no fee is computed, no issuer credit
occurs), while the output loop credits every output coin by exactly its
amount. -/
theorem c6_undefined_denom_passthrough (ctx : TxCtx) (address : String) (idx : Nat)
    (coin : Coin) (changes : ChangesMap) (out_address : String)
    (h : lookupA coin.denom ctx.denom_definitions_map = none) :
    processInputCoin ctx address idx coin changes = Outcome.ok changes ∧
    deltaOf (addToEntry out_address coin.denom coin.amount changes) out_address coin.denom =
      deltaOf changes out_address coin.denom + coin.amount := by
  constructor
  · simp only [processInputCoin, h]
  · exact deltaOf_addToEntry_self out_address coin.denom coin.amount changes

/-- C6 witness: the amended theorem applied at a concrete undefined denom. -/
theorem c6_undefined_denom_passthrough_witness :
    lookupA "u" (TxCtx.mk [] [] [] []).denom_definitions_map = none ∧
    (processInputCoin (TxCtx.mk [] [] [] []) "a" 0 ⟨"u", 5⟩ [] = Outcome.ok [] ∧
     deltaOf (addToEntry "b" "u" 5 []) "b" "u" = deltaOf [] "b" "u" + 5) :=
  ⟨by decide, c6_undefined_denom_passthrough (TxCtx.mk [] [] [] []) "a" 0 ⟨"u", 5⟩ [] "b"
    (by decide)⟩

/-- C4 counterexample: `roundup` does not return the next larger integer on
every fractional remainder. At exact fee value 1/4 (rate 1/4, burn base 1,
input 1, non-issuer input sum 1) it returns 0, strictly below the exact
rational value, so a fractional fee is rounded downward. -/
theorem c4_fractional_fee_rounded_down :
    evaluate_rate 1 (1/4) 1 1 = 0 ∧ roundup (1/4) = 0 ∧
    ((roundup (1/4) : ℚ) < ((1 : ℚ) * (1/4)) * 1 / 1) := by
  refine ⟨?_, ?_, ?_⟩ <;> norm_num [evaluate_rate, roundup, f64_as_i128]

/-- C4 amended: `roundup` is round-half-up, not ceiling: for a nonnegative
argument it adds one half and truncates, so a fractional remainder below one
half rounds down to the floor (the collected fee can be below the exact
rational value) and a remainder of one half or more rounds up to the next
integer. -/
theorem c4_roundup_is_round_half_up (q : ℚ) (h : 0 ≤ q) :
    (q - ⌊q⌋ < 1/2 → roundup q = ⌊q⌋) ∧ (1/2 ≤ q - ⌊q⌋ → roundup q = ⌊q⌋ + 1) := by
  have h2 : (0:ℚ) ≤ q + 1/2 := by linarith
  have hfl : (⌊q⌋ : ℚ) ≤ q := Int.floor_le q
  have hlt : q < ⌊q⌋ + 1 := Int.lt_floor_add_one q
  unfold roundup f64_as_i128
  rw [if_pos h2]
  constructor
  · intro hf
    rw [Int.floor_eq_iff]
    constructor
    · linarith
    · linarith
  · intro hf
    rw [Int.floor_eq_iff]
    constructor
    · push_cast
      linarith
    · push_cast
      linarith

/-- C4 witness: the amended theorem applied at 3/4, whose remainder rounds
up. -/
theorem c4_roundup_is_round_half_up_witness :
    (0:ℚ) ≤ 3/4 ∧ (1:ℚ)/2 ≤ 3/4 - ⌊(3:ℚ)/4⌋ ∧ roundup (3/4) = ⌊(3:ℚ)/4⌋ + 1 :=
  ⟨by norm_num, by norm_num, (c4_roundup_is_round_half_up (3/4) (by norm_num)).2 (by norm_num)⟩

/-- C7: for every non-issuer input coin of a defined denom that passes the
lookups and the balance check, the produced state credits the denom's issuer
by exactly that sender's commission share, additively on top of whatever
delta the issuer already had (also when the issuer had no entry at all), and
no other address but the sender and the issuer is touched — in particular the
burn share is credited to no account. -/
theorem c7_issuer_commission_credit (ctx : TxCtx) (address : String) (idx : Nat) (coin : Coin)
    (changes : ChangesMap) (dd : DenomDefinition) (niis nios : Int) (bal : Balance) (c : Coin)
    (hdef : lookupA coin.denom ctx.denom_definitions_map = some dd)
    (hne : address ≠ dd.issuer)
    (hi : lookupA coin.denom ctx.non_issuer_input_sum_map = some niis)
    (ho : lookupA coin.denom ctx.non_issuer_output_sum_map = some nios)
    (hb : lookupA address ctx.balances_map = some bal)
    (hc : bal.coins.get? idx = some c)
    (hsuff : ¬ (c.amount < coin.amount +
      evaluate_rate coin.amount dd.burn_rate (minI niis nios) niis +
      evaluate_rate coin.amount dd.commission_rate (minI niis nios) niis)) :
    ∃ S, processInputCoin ctx address idx coin changes = Outcome.ok S ∧
      deltaOf S dd.issuer coin.denom =
        deltaOf changes dd.issuer coin.denom +
          evaluate_rate coin.amount dd.commission_rate (minI niis nios) niis ∧
      ∀ a d, a ≠ address → a ≠ dd.issuer → deltaOf S a d = deltaOf changes a d := by
  refine ⟨creditIssuer dd.issuer coin.denom
      (evaluate_rate coin.amount dd.commission_rate (minI niis nios) niis)
      (addToEntry address coin.denom
        (-(evaluate_rate coin.amount dd.burn_rate (minI niis nios) niis +
           evaluate_rate coin.amount dd.commission_rate (minI niis nios) niis + coin.amount))
        changes), ?_, ?_, ?_⟩
  · simp only [processInputCoin, hdef, hne, hi, ho, hb, hc, hsuff, ne_eq,
      not_false_eq_true, if_true, if_false, ite_false, ite_true]
  · rw [deltaOf_creditIssuer_self,
      deltaOf_addToEntry_ne address coin.denom _ changes dd.issuer coin.denom (Ne.symm hne)]
  · intro a d ha hai
    rw [deltaOf_creditIssuer_ne dd.issuer coin.denom _ _ a d hai,
      deltaOf_addToEntry_ne address coin.denom _ changes a d ha]

/-- C7 witness: the theorem applied at a concrete context where the issuer
starts with no delta entry, burn rate 1/2 and commission rate 1/4. -/
theorem c7_issuer_commission_credit_witness :
    lookupA "d" (TxCtx.mk [("d", 100)] [("d", 80)] [("s", Balance.mk "s" [⟨"d", 1000⟩])]
        [("d", DenomDefinition.mk "d" "I" (1/2) (1/4))]).denom_definitions_map =
      some (DenomDefinition.mk "d" "I" (1/2) (1/4)) ∧
    "s" ≠ "I" ∧
    ¬ ((1000 : Int) < 100 + evaluate_rate 100 (1/2) (minI 100 80) 100 +
        evaluate_rate 100 (1/4) (minI 100 80) 100) ∧
    (∃ S, processInputCoin (TxCtx.mk [("d", 100)] [("d", 80)]
        [("s", Balance.mk "s" [⟨"d", 1000⟩])] [("d", DenomDefinition.mk "d" "I" (1/2) (1/4))])
        "s" 0 ⟨"d", 100⟩ [] = Outcome.ok S ∧
      deltaOf S "I" "d" = deltaOf [] "I" "d" + evaluate_rate 100 (1/4) (minI 100 80) 100 ∧
      ∀ a d2, a ≠ "s" → a ≠ "I" → deltaOf S a d2 = deltaOf [] a d2) :=
  ⟨rfl, by decide, by norm_num [evaluate_rate, roundup, f64_as_i128, minI],
   c7_issuer_commission_credit
     (TxCtx.mk [("d", 100)] [("d", 80)] [("s", Balance.mk "s" [⟨"d", 1000⟩])]
       [("d", DenomDefinition.mk "d" "I" (1/2) (1/4))])
     "s" 0 ⟨"d", 100⟩ [] (DenomDefinition.mk "d" "I" (1/2) (1/4)) 100 80
     (Balance.mk "s" [⟨"d", 1000⟩]) ⟨"d", 1000⟩
     rfl (by decide) rfl rfl rfl rfl
     (by norm_num [evaluate_rate, roundup, f64_as_i128, minI])⟩

/-- C9 counterexample: an instruction with a non-issuer input of a defined
denom and no non-issuer output of that denom does not always panic — when the
combined-total validation fails first, the call returns the rejection. Here
denom dX has a non-issuer input of 100 and no outputs at all, and the call
returns the unbalanced-transaction error instead of panicking. -/
theorem c9_unbalanced_rejection_precedes_lookup :
    calculate_balance_changes [] [⟨"dX", "I", 0, 0⟩] ⟨[⟨"s", [⟨"dX", 100⟩]⟩], []⟩ =
      Outcome.err "Invalid Multi Send Tx" ∧
    lookupA "dX" (initialize_non_issuer_output_sum_map
      (initialize_definitions_map [⟨"dX", "I", 0, 0⟩]) []) = none := by
  exact ⟨rfl, by decide⟩

/-- C9 amended: when the combined-total validation passes and input
processing reaches a non-issuer input coin of a defined denom whose
non-issuer output sum map has no entry (all outputs of that denom go to the
issuer or are absent) — here, the first coin of the first input leg — the
unwrap of that denom's non-issuer output sum panics instead of returning a
rejection; the preceding input-sum unwrap succeeds because the coin itself
contributed to it. -/
theorem c9_reached_missing_output_sum_panics
    (original_balances : List Balance) (definitions : List DenomDefinition)
    (address : String) (coin : Coin) (cs : List Coin) (rest : List Balance)
    (outs : List Balance) (dd : DenomDefinition)
    (hv : validate_multi_send_tx ⟨Balance.mk address (coin :: cs) :: rest, outs⟩ = Except.ok ())
    (hdef : lookupA coin.denom (initialize_definitions_map definitions) = some dd)
    (hne : address ≠ dd.issuer)
    (hout : lookupA coin.denom (initialize_non_issuer_output_sum_map
      (initialize_definitions_map definitions) outs) = none) :
    calculate_balance_changes original_balances definitions
      ⟨Balance.mk address (coin :: cs) :: rest, outs⟩ = Outcome.panic := by
  obtain ⟨niis, hniis⟩ := Option.isSome_iff_exists.mp
    (firstCoin_inputSum_isSome definitions address coin cs rest dd hdef hne)
  have hstep : processInputCoin (build_tx_ctx original_balances definitions
      ⟨Balance.mk address (coin :: cs) :: rest, outs⟩) address 0 coin [] = Outcome.panic := by
    simp only [processInputCoin, build_tx_ctx_defs, build_tx_ctx_input_sums,
      build_tx_ctx_output_sums, hdef, if_pos hne, hniis, hout]
  simp only [calculate_balance_changes, hv, processInputs, processInputCoins, hstep]

/-- C9 witness: a balanced instruction whose only output of denom dX goes to
the issuer, so the non-issuer output sum map has no dX entry and the call
panics. -/
theorem c9_reached_missing_output_sum_panics_witness :
    validate_multi_send_tx ⟨[Balance.mk "s" [⟨"dX", 100⟩]], [⟨"I", [⟨"dX", 100⟩]⟩]⟩ =
      Except.ok () ∧
    lookupA "dX" (initialize_definitions_map [⟨"dX", "I", 0, 0⟩]) =
      some (DenomDefinition.mk "dX" "I" 0 0) ∧
    "s" ≠ "I" ∧
    lookupA "dX" (initialize_non_issuer_output_sum_map
      (initialize_definitions_map [⟨"dX", "I", 0, 0⟩]) [⟨"I", [⟨"dX", 100⟩]⟩]) = none ∧
    calculate_balance_changes [] [⟨"dX", "I", 0, 0⟩]
      ⟨[Balance.mk "s" [⟨"dX", 100⟩]], [⟨"I", [⟨"dX", 100⟩]⟩]⟩ = Outcome.panic :=
  ⟨rfl, rfl, by decide, by decide,
   c9_reached_missing_output_sum_panics [] [⟨"dX", "I", 0, 0⟩] "s" ⟨"dX", 100⟩ [] []
     [⟨"I", [⟨"dX", 100⟩]⟩] (DenomDefinition.mk "dX" "I" 0 0) rfl rfl (by decide) (by decide)⟩

/-- C10 counterexample: a non-issuer input leg of a defined denom whose
sender is absent from the balance snapshot does not always panic — when the
combined-total validation fails first, the call returns the rejection
instead. -/
theorem c10_unbalanced_rejection_precedes_balance_lookup :
    calculate_balance_changes [] [⟨"dY", "J", 0, 0⟩]
      ⟨[⟨"ghost", [⟨"dY", 50⟩]⟩], [⟨"r", [⟨"dY", 49⟩]⟩]⟩ =
      Outcome.err "Invalid Multi Send Tx" ∧
    lookupA "ghost" (initialize_balances_map []) = none :=
  ⟨rfl, by decide⟩

/-- C10 amended: when the combined-total validation passes and input
processing reaches a non-issuer input coin of a defined denom (here, the
first coin of the first input leg) whose non-issuer output sum is present but
whose sender address is absent from the balances map, the unwrap of the
sender's balance panics instead of returning an insufficient-balance
rejection. -/
theorem c10_reached_missing_sender_balance_panics
    (original_balances : List Balance) (definitions : List DenomDefinition)
    (address : String) (coin : Coin) (cs : List Coin) (rest : List Balance)
    (outs : List Balance) (dd : DenomDefinition) (nios : Int)
    (hv : validate_multi_send_tx ⟨Balance.mk address (coin :: cs) :: rest, outs⟩ = Except.ok ())
    (hdef : lookupA coin.denom (initialize_definitions_map definitions) = some dd)
    (hne : address ≠ dd.issuer)
    (hout : lookupA coin.denom (initialize_non_issuer_output_sum_map
      (initialize_definitions_map definitions) outs) = some nios)
    (hbal : lookupA address (initialize_balances_map original_balances) = none) :
    calculate_balance_changes original_balances definitions
      ⟨Balance.mk address (coin :: cs) :: rest, outs⟩ = Outcome.panic := by
  obtain ⟨niis, hniis⟩ := Option.isSome_iff_exists.mp
    (firstCoin_inputSum_isSome definitions address coin cs rest dd hdef hne)
  have hstep : processInputCoin (build_tx_ctx original_balances definitions
      ⟨Balance.mk address (coin :: cs) :: rest, outs⟩) address 0 coin [] = Outcome.panic := by
    simp only [processInputCoin, build_tx_ctx_defs, build_tx_ctx_input_sums,
      build_tx_ctx_output_sums, build_tx_ctx_balances, hdef, if_pos hne, hniis, hout, hbal]
  simp only [calculate_balance_changes, hv, processInputs, processInputCoins, hstep]

/-- C10 witness: a balanced instruction from a sender with no entry in the
balance snapshot panics. -/
theorem c10_reached_missing_sender_balance_panics_witness :
    validate_multi_send_tx ⟨[Balance.mk "ghost" [⟨"dZ", 50⟩]], [⟨"r", [⟨"dZ", 50⟩]⟩]⟩ =
      Except.ok () ∧
    lookupA "dZ" (initialize_definitions_map [⟨"dZ", "J", 0, 0⟩]) =
      some (DenomDefinition.mk "dZ" "J" 0 0) ∧
    "ghost" ≠ "J" ∧
    lookupA "dZ" (initialize_non_issuer_output_sum_map
      (initialize_definitions_map [⟨"dZ", "J", 0, 0⟩]) [⟨"r", [⟨"dZ", 50⟩]⟩]) = some 50 ∧
    lookupA "ghost" (initialize_balances_map []) = none ∧
    calculate_balance_changes [] [⟨"dZ", "J", 0, 0⟩]
      ⟨[Balance.mk "ghost" [⟨"dZ", 50⟩]], [⟨"r", [⟨"dZ", 50⟩]⟩]⟩ = Outcome.panic :=
  ⟨rfl, rfl, by decide, by decide, by decide,
   c10_reached_missing_sender_balance_panics [] [⟨"dZ", "J", 0, 0⟩] "ghost" ⟨"dZ", 50⟩ [] []
     [⟨"r", [⟨"dZ", 50⟩]⟩] (DenomDefinition.mk "dZ" "J" 0 0) 50 rfl rfl (by decide) (by decide)
     rfl⟩
